import Mathlib

/-!
Verification development for the `traduccion-backend` repository
(`src/main.py`), a FastAPI service that joins two spreadsheet tables,
filters by shipment (`embarque`) or waybill identifier, and either returns
the joined rows as JSON (`GET /data`, `obtener_datos`) or writes them into
a spreadsheet template (`POST /export`, `exportar_datos`).

The shallow embedding models pandas dataframes as Lean lists of records
whose cells are `Value`s.  A pandas missing cell (NaN/NaT) is `Value.nan`;
a Python `None` (which appears only after `df.replace({np.nan: None, ...})`)
is `Value.null`; IEEE infinities are `Value.inf` / `Value.ninf`.
-/

namespace Traduccion

/-- A spreadsheet / dataframe cell value.
`nan` is the pandas missing value (what `read_excel` stores for an empty
cell); `null` is the Python `None` object (produced by
`df.replace({np.nan: None, np.inf: None, -np.inf: None})` on the read
path); `inf`/`ninf` are the IEEE infinities that this `replace` call also
eliminates. -/
inductive Value where
  | nan : Value
  | null : Value
  | num : Rat → Value
  | str : String → Value
  | inf : Value
  | ninf : Value
deriving DecidableEq, Repr

/-- `pd.isna` / negation of `pd.notna`: both the pandas missing value and
the Python `None` object count as missing; strings, numbers and
infinities do not. -/
def isna : Value → Bool
  | .nan => true
  | .null => true
  | _ => false

/-- Python `str(...)`, which is also what pandas `Series.astype(str)`
applies element-wise: `str(np.nan) = "nan"`, `str(None) = "None"`.
Numeric formatting (`Rat` via `toString`) is a simplification that no
claim depends on; every theorem below that inspects a stringified cell
does so on `str` or missing cells, where this function is exact. -/
def astypeStr : Value → String
  | .nan => "nan"
  | .null => "None"
  | .num q => toString q
  | .str s => s
  | .inf => "inf"
  | .ninf => "-inf"

/-- Lower-case a character list (models the `case=False` flag of
`Series.str.contains`, i.e. `re.IGNORECASE`). -/
def lcList (cs : List Char) : List Char :=
  cs.map Char.toLower

/-- `pat` occurs at the start of `hay`. -/
def startsWithList : List Char → List Char → Bool
  | _, [] => true
  | [], _ :: _ => false
  | h :: hs, p :: ps => h == p && startsWithList hs ps

/-- `pat` occurs somewhere inside `hay` (contiguously). -/
def containsList : List Char → List Char → Bool
  | hay, pat =>
    if startsWithList hay pat then true
    else match hay with
      | [] => false
      | _ :: hs => containsList hs pat

/-- `Series.str.contains(value, case=False)` for a regex-free `value`:
case-insensitive substring test.  (pandas interprets `value` as a regular
expression; on patterns without regex metacharacters — all that the
claims exercise — `re.search` is exactly substring containment.) -/
def strContainsCI (hay pat : String) : Bool :=
  containsList (lcList hay.data) (lcList pat.data)

/-- Specification-level notion of "contains as a case-insensitive
substring": an explicit decomposition of the lower-cased haystack. -/
def CISubstring (pat hay : String) : Prop :=
  ∃ l r, lcList hay.data = l ++ lcList pat.data ++ r

/-- Parse a decimal literal: optional fraction, all digits.  Used by
`parseNumeric` below. -/
def parseUnsigned (cs : List Char) : Option Rat :=
  let intPart := cs.takeWhile Char.isDigit
  let rest := cs.dropWhile Char.isDigit
  match rest with
  | [] =>
    if intPart.isEmpty then Option.none
    else some ((intPart.foldl (fun a c => a * 10 + (c.toNat - 48)) 0 : Nat) : Rat)
  | '.' :: fracPart =>
    if fracPart.all Char.isDigit ∧ ¬(intPart.isEmpty ∧ fracPart.isEmpty) then
      some (((intPart.foldl (fun a c => a * 10 + (c.toNat - 48)) 0 : Nat) : Rat)
        + ((fracPart.foldl (fun a c => a * 10 + (c.toNat - 48)) 0 : Nat) : Rat)
          / ((10 : Rat) ^ fracPart.length))
    else Option.none
  | _ => Option.none

/-- The decimal fragment of the parser behind `pd.to_numeric`: optional
sign, digits, optional fractional part.  (Scientific notation and
surrounding whitespace are outside the modelled fragment; no claim
exercises them.) -/
def parseNumeric (s : String) : Option Rat :=
  match s.data with
  | '-' :: rest => (parseUnsigned rest).map Neg.neg
  | '+' :: rest => parseUnsigned rest
  | cs => parseUnsigned cs

/-- `pd.to_numeric(x, errors='coerce')`: numbers pass through, numeric
strings are parsed, everything unparseable or missing becomes NaN. -/
def toNumeric : Value → Value
  | .num q => .num q
  | .str s =>
    match parseNumeric s with
    | some q => .num q
    | Option.none => .nan
  | .nan => .nan
  | .null => .nan
  | .inf => .inf
  | .ninf => .ninf

/-- `Series.fillna(0)`. -/
def fillnaZero (v : Value) : Value :=
  if isna v then .num 0 else v

/-- `pd.to_numeric(x, errors='coerce').fillna(0)`, as applied to the
`PCU1`, `Cantidad` and `Flete_US$` columns on the read path
(src/main.py lines 202-206). -/
def coerceNum (v : Value) : Value :=
  fillnaZero (toNumeric v)

/-- Element-wise product of two numeric series values.  After `coerceNum`
every non-infinite input is a `num`; infinite operands (whose IEEE
arithmetic this model does not reproduce) fall to `nan`. -/
def vMul : Value → Value → Value
  | .num a, .num b => .num (a * b)
  | _, _ => .nan

/-- Element-wise sum of two numeric series values (same conventions as
`vMul`). -/
def vAdd : Value → Value → Value
  | .num a, .num b => .num (a + b)
  | _, _ => .nan

/-- Specification-level description of the read-path coercion: numbers
keep their value, numeric strings parse, everything else (missing,
empty, non-numeric) is 0. -/
def coerceSpec : Value → Rat
  | .num q => q
  | .str s => (parseNumeric s).getD 0
  | _ => 0

/-- `df.replace({np.nan: None, np.inf: None, -np.inf: None})`,
element-wise (src/main.py line 245). -/
def replaceSpecial : Value → Value
  | .nan => .null
  | .inf => .null
  | .ninf => .null
  | v => v

/-! ## Row types

The reference sheet `Traduccion-Equipos.xlsx` (dataframe `a`/`b`) supplies
`Modelo`, `Codigo` and the descriptive translation columns; the purchase
sheet `002_Compras_OCI.xlsx` (dataframe `c`) supplies the commercial
columns including the `Codigo_Comercial` join key.  Columns of either
sheet that no claim mentions are omitted. -/

/-- A row of the reference (translation) table. -/
structure RefRow where
  modelo : Value
  codigo : Value
  descripcion : Value
  material : Value
  uso : Value
  marca : Value
deriving DecidableEq, Repr

/-- A row of the purchase table. -/
structure PurchaseRow where
  codigoComercial : Value
  item : Value
  cantidad : Value
  numOC : Value
  numInvoice : Value
  pcu1 : Value
  fleteUS : Value
  moneda : Value
  paisOrigen : Value
  operadorLogistico : Value
  fechaInvoice : Value
  grupoImportacion : Value
  numDocTransporte : Value
  razonSocialProveedor : Value
  incoterm : Value
  formaPago : Value
  statusOCI : Value
deriving DecidableEq, Repr

/-- A row of `pd.merge(c, b, how='left', on='Codigo_Comercial')`: all
purchase columns plus the reference columns (which a left join leaves as
NaN on unmatched rows). -/
structure JoinedRow extends PurchaseRow where
  modelo : Value
  codigo : Value
  descripcion : Value
  material : Value
  uso : Value
  marca : Value
deriving DecidableEq, Repr

/-! ## Reference deduplication (src/main.py lines 194-199 / 292-297) -/

/-- `a['ID'] = a['Modelo'].astype(str) + '-' + a['Codigo'].astype(str)`
(line 196): the composite dedup key. -/
def refKey (r : RefRow) : String :=
  astypeStr r.modelo ++ "-" ++ astypeStr r.codigo

/-- `frame[~frame[col].duplicated()]`: keep each row whose key has not
been seen before (first occurrence survives, original order kept).
`seen` accumulates the keys already encountered. -/
def keepFirst {α β : Type} [DecidableEq β] (f : α → β) : List α → List β → List α
  | [], _ => []
  | r :: rs, seen =>
    if f r ∈ seen then keepFirst f rs seen
    else r :: keepFirst f rs (f r :: seen)

/-- Lines 197-198: `b = a[~a['ID'].duplicated()]` followed by
`b = b[~b['Modelo'].duplicated()]` — composite-key dedup first, then
`Modelo` dedup (pandas `duplicated` treats NaN cells as equal, as does
`DecidableEq Value`). -/
def dedupRef (rows : List RefRow) : List RefRow :=
  keepFirst RefRow.modelo (keepFirst refKey rows []) []

/-- Line 199: `b['Codigo_Comercial'] = b['Modelo']` — the join key of a
reference row is a copy of its `Modelo`. -/
def refCodigoComercial (r : RefRow) : Value :=
  r.modelo

/-! ## Left join (src/main.py line 201 / 299) -/

/-- Key comparison used by `pd.merge`: pandas factorizes the join keys
with a single shared NA group (`_factorize_keys` remaps every missing
code on either side to one common code), so missing keys (NaN/None) all
match each other; present keys match by equality. -/
def matchKey (l r : Value) : Bool :=
  (isna l && isna r) || l == r

/-- Combine a purchase row with its matched reference row. -/
def joinWith (p : PurchaseRow) (r : RefRow) : JoinedRow :=
  { toPurchaseRow := p, modelo := r.modelo, codigo := r.codigo,
    descripcion := r.descripcion, material := r.material,
    uso := r.uso, marca := r.marca }

/-- An unmatched purchase row: reference columns filled with NaN. -/
def joinNull (p : PurchaseRow) : JoinedRow :=
  { toPurchaseRow := p, modelo := .nan, codigo := .nan,
    descripcion := .nan, material := .nan, uso := .nan, marca := .nan }

/-- `pd.merge(c, b, how='left', on='Codigo_Comercial')`: for each left
row in order, one output row per matching right row, or a single
NaN-filled row when nothing matches. -/
def mergeLeft (left : List PurchaseRow) (right : List RefRow) : List JoinedRow :=
  match left with
  | [] => []
  | p :: ps =>
    (match right.filter (fun r => matchKey p.codigoComercial (refCodigoComercial r)) with
     | [] => [joinNull p]
     | ms => ms.map (joinWith p)) ++ mergeLeft ps right

/-- The single joined row a purchase row produces when the reference keys
are unique: its first (hence only) match, or the NaN-filled row. -/
def joinRow (right : List RefRow) (p : PurchaseRow) : JoinedRow :=
  match right.find? (fun r => matchKey p.codigoComercial (refCodigoComercial r)) with
  | some r => joinWith p r
  | Option.none => joinNull p

/-! ## Column selection and renaming (src/main.py lines 202-232 / 300-318)

`ReadRow` is the joined frame after the rename map `new_columns`; field
names transliterate the display column names:
`cant = Cant`, `numOC = Nº O.COMPRA`, `factura = FACTURA`,
`paisOrigen = País De Origen`, `precioUnitario = Precio Unitario`,
`flete = Flete`, `transportista = TRANSPORTISTA`,
`fechaFactura = FECHA FACTURA`, `nEmbarque = Nº EMBARQUE`,
`airWaybill = Air Waybill`, `proveedor = PROVEEDOR`,
`incoterm = INCOTERM`, `formaPago = FORMA DE PAGO`, `estado = ESTADO`. -/

/-- A joined row after column selection/renaming (the 24 columns the read
path selects; the export path keeps further columns that no claim
mentions). -/
structure ReadRow where
  item : Value
  cant : Value
  numOC : Value
  factura : Value
  codigo : Value
  modelo : Value
  descripcion : Value
  material : Value
  uso : Value
  paisOrigen : Value
  moneda : Value
  precioUnitario : Value
  subTotal : Value
  flete : Value
  precioTotal : Value
  transportista : Value
  fechaFactura : Value
  nEmbarque : Value
  airWaybill : Value
  proveedor : Value
  incoterm : Value
  formaPago : Value
  estado : Value
  marca : Value
deriving DecidableEq, Repr

/-- Read path, lines 202-232: coerce `PCU1`, `Cantidad`, `Flete_US$` to
numeric with 0 fallback, compute `Sub Total = PCU1 * Cantidad` and
`Precio Total = Sub Total + Flete_US$`, then select and rename. -/
def readRowOfJoined (j : JoinedRow) : ReadRow :=
  let p := coerceNum j.pcu1
  let c := coerceNum j.cantidad
  let f := coerceNum j.fleteUS
  let sub := vMul p c
  let tot := vAdd sub f
  { item := j.item, cant := c, numOC := j.numOC, factura := j.numInvoice,
    codigo := j.codigo, modelo := j.modelo, descripcion := j.descripcion,
    material := j.material, uso := j.uso, paisOrigen := j.paisOrigen,
    moneda := j.moneda, precioUnitario := p, subTotal := sub, flete := f,
    precioTotal := tot, transportista := j.operadorLogistico,
    fechaFactura := j.fechaInvoice, nEmbarque := j.grupoImportacion,
    airWaybill := j.numDocTransporte, proveedor := j.razonSocialProveedor,
    incoterm := j.incoterm, formaPago := j.formaPago,
    estado := j.statusOCI, marca := j.marca }

/-- Export path, lines 300-318: no coercion; `Sub Total` and
`Precio Total` are the literal 0 (real values come later from
spreadsheet formulas); then the same rename. -/
def exportRowOfJoined (j : JoinedRow) : ReadRow :=
  { item := j.item, cant := j.cantidad, numOC := j.numOC,
    factura := j.numInvoice, codigo := j.codigo, modelo := j.modelo,
    descripcion := j.descripcion, material := j.material, uso := j.uso,
    paisOrigen := j.paisOrigen, moneda := j.moneda,
    precioUnitario := j.pcu1, subTotal := .num 0, flete := j.fleteUS,
    precioTotal := .num 0, transportista := j.operadorLogistico,
    fechaFactura := j.fechaInvoice, nEmbarque := j.grupoImportacion,
    airWaybill := j.numDocTransporte, proveedor := j.razonSocialProveedor,
    incoterm := j.incoterm, formaPago := j.formaPago,
    estado := j.statusOCI, marca := j.marca }

/-! ## Filtering (src/main.py lines 233-238 / 319-324) -/

/-- The `type` query parameter: `Literal["embarque", "waybill"]`. -/
inductive FilterMode where
  | embarque : FilterMode
  | waybill : FilterMode
deriving DecidableEq, Repr

/-- The column the filter reads: `Nº EMBARQUE` in mode `embarque`,
`Air Waybill` in mode `waybill`. -/
def targetColumn (mode : FilterMode) (r : ReadRow) : Value :=
  match mode with
  | .embarque => r.nEmbarque
  | .waybill => r.airWaybill

/-- `df[col].astype(str).str.contains(value, case=False, na=False)`:
the cell is stringified first (so a missing cell becomes the literal
string `"nan"`, and the `na=False` flag never sees a missing value),
then tested for `value` case-insensitively. -/
def rowMatches (mode : FilterMode) (v : String) (r : ReadRow) : Bool :=
  strContainsCI (astypeStr (targetColumn mode r)) v

/-! ## Read-path serialization and summary (src/main.py lines 239-263) -/

/-- Apply a function to every column of a row. -/
def mapRow (g : Value → Value) (r : ReadRow) : ReadRow :=
  { item := g r.item, cant := g r.cant, numOC := g r.numOC,
    factura := g r.factura, codigo := g r.codigo, modelo := g r.modelo,
    descripcion := g r.descripcion, material := g r.material,
    uso := g r.uso, paisOrigen := g r.paisOrigen, moneda := g r.moneda,
    precioUnitario := g r.precioUnitario, subTotal := g r.subTotal,
    flete := g r.flete, precioTotal := g r.precioTotal,
    transportista := g r.transportista, fechaFactura := g r.fechaFactura,
    nEmbarque := g r.nEmbarque, airWaybill := g r.airWaybill,
    proveedor := g r.proveedor, incoterm := g r.incoterm,
    formaPago := g r.formaPago, estado := g r.estado, marca := g r.marca }

/-- Lines 245-247: `df.replace({np.nan: None, np.inf: None,
-np.inf: None})` over every column, then
`df['FECHA FACTURA'] = df['FECHA FACTURA'].astype(str)` (which turns the
just-inserted `None` into the string `"None"`). -/
def postProcess (r : ReadRow) : ReadRow :=
  let rp := mapRow replaceSpecial r
  { rp with fechaFactura := .str (astypeStr rp.fechaFactura) }

/-- The `info` dictionary (lines 249-259 and 327-337). -/
structure SummaryInfo where
  transportista : Value
  fechaFactura : Value
  nEmbarque : Value
  airWaybill : Value
  marca : Value
  proveedor : Value
  incoterm : Value
  formaPago : Value
  estado : Value
deriving DecidableEq, Repr

/-- `primera_fila[col] if pd.notna(primera_fila[col]) else ""`. -/
def infoField (v : Value) : Value :=
  if isna v then .str "" else v

/-- `str(primera_fila['FECHA FACTURA']) if pd.notna(...) else ""` — the
date field additionally goes through Python `str(...)`. -/
def infoFecha (v : Value) : Value :=
  if isna v then .str "" else .str (astypeStr v)

/-- Build the `info` dictionary from the first filtered row. -/
def extractInfo (r : ReadRow) : SummaryInfo :=
  { transportista := infoField r.transportista,
    fechaFactura := infoFecha r.fechaFactura,
    nEmbarque := infoField r.nEmbarque,
    airWaybill := infoField r.airWaybill,
    marca := infoField r.marca,
    proveedor := infoField r.proveedor,
    incoterm := infoField r.incoterm,
    formaPago := infoField r.formaPago,
    estado := infoField r.estado }

/-- Outcome of `GET /data`: `ok data info mensaje` is an HTTP 200 JSON
body; `err status detail` is a raised `HTTPException`. -/
inductive ReadResult where
  | ok : List ReadRow → Option SummaryInfo → Option String → ReadResult
  | err : Nat → String → ReadResult
deriving DecidableEq, Repr

/-- Render the `type` parameter into the not-found message. -/
def modeStr : FilterMode → String
  | .embarque => "embarque"
  | .waybill => "waybill"

/-- `GET /data` (`obtener_datos`, lines 190-263), starting from the
joined frame (file loading, dedup and merge are applied by the caller
via `dedupRef`/`mergeLeft`): compute derived columns, select/rename,
filter; on an empty filter result return 200 with empty data, null info
and a message; otherwise replace NaN/±inf by None, stringify
`FECHA FACTURA`, and extract the summary from the first row
(`df.iloc[0]`). -/
def obtener_datos (joined : List JoinedRow) (mode : FilterMode) (v : String) : ReadResult :=
  let df := joined.map readRowOfJoined
  let fd := df.filter (rowMatches mode v)
  match fd with
  | [] =>
    .ok [] Option.none
      (some ("No se encontraron resultados para " ++ modeStr mode ++ ": " ++ v))
  | first :: rest =>
    let out := (first :: rest).map postProcess
    .ok out (some (extractInfo (postProcess first))) Option.none

/-! ## Spreadsheet exporter (src/main.py lines 279-399) -/

/-- The rectangular extent of the named workbook table `Tabla24`, as
`range_boundaries(table.ref)` returns it (line 353). -/
structure TableRef where
  minCol : Nat
  minRow : Nat
  maxCol : Nat
  maxRow : Nat
deriving DecidableEq, Repr

/-- A worksheet cell address, `col` and `row` both 1-based
(column 1 = A, 2 = B, 3 = C, ...). -/
structure CellRef where
  col : Nat
  row : Nat
deriving DecidableEq, Repr

/-- The two formula shapes the exporter writes:
`=M{r}*C{r}` is `mulRef ⟨13, r⟩ ⟨3, r⟩` and `=O{r}+N{r}` is
`addRef ⟨15, r⟩ ⟨14, r⟩` (structured rendering of the formula strings of
lines 368-369). -/
inductive Formula where
  | mulRef : CellRef → CellRef → Formula
  | addRef : CellRef → CellRef → Formula
deriving DecidableEq, Repr

/-- One `ws.cell(row=..., column=..., value=...)` call (line 362). -/
structure CellWrite where
  row : Nat
  col : Nat
  val : Value
deriving DecidableEq, Repr

/-- One formula assignment `ws[f'...{row}'] = ...` (lines 368-369). -/
structure FormulaWrite where
  cell : CellRef
  formula : Formula
deriving DecidableEq, Repr

/-- The inner loop of lines 361-362: `for col, value in enumerate(row,
start=min_col)`. -/
def writeRowCells (rowIdx colStart : Nat) : List Value → List CellWrite
  | [] => []
  | v :: vs => ⟨rowIdx, colStart, v⟩ :: writeRowCells rowIdx (colStart + 1) vs

/-- The outer loop of lines 357-363: `for row_idx, row in
enumerate(dataframe_to_rows(df_filtered, ...), start=start_row)`. -/
def writeRowsFrom (rowIdx minCol : Nat) : List (List Value) → List CellWrite
  | [] => []
  | r :: rs => writeRowCells rowIdx minCol r ++ writeRowsFrom (rowIdx + 1) minCol rs

/-- All data-cell writes: rows start at `start_row = max_row + 1`,
columns at `min_col` (the table's left edge). -/
def appendRows (t : TableRef) (rows : List (List Value)) : List CellWrite :=
  writeRowsFrom (t.maxRow + 1) t.minCol rows

/-- The value of `last_row` after the write loop: it starts at
`start_row - 1 = max_row` (line 355) and ends at `max_row + len(rows)`;
`t.maxRow + rows.length` covers both the empty and non-empty loop. -/
def lastRowAfter (t : TableRef) (rows : List (List Value)) : Nat :=
  t.maxRow + rows.length

/-- Line 365: `table.ref = f"{min_col}{min_row}:{max_col}{last_row}"` —
same columns, extended through the last written row. -/
def tableRefAfter (t : TableRef) (rows : List (List Value)) : TableRef :=
  { minCol := t.minCol, minRow := t.minRow, maxCol := t.maxCol,
    maxRow := lastRowAfter t rows }

/-- Lines 368-369 for one row `r`:
`ws[f'N{r}'] = f'=M{r}*C{r}'` and `ws[f'P{r}'] = f'=O{r}+N{r}'`
(N = column 14, M = 13, C = 3, P = 16, O = 15). -/
def rowFormulas (r : Nat) : List FormulaWrite :=
  [⟨⟨14, r⟩, .mulRef ⟨13, r⟩ ⟨3, r⟩⟩,
   ⟨⟨16, r⟩, .addRef ⟨15, r⟩ ⟨14, r⟩⟩]

/-- `cnt` consecutive rows of formula writes starting at row `s`. -/
def writeFormulasAux : Nat → Nat → List FormulaWrite
  | _, 0 => []
  | s, n + 1 => rowFormulas s ++ writeFormulasAux (s + 1) n

/-- Line 367: `for row in range(start_row, last_row + 1)`. -/
def writeFormulas (startRow lastRow : Nat) : List FormulaWrite :=
  writeFormulasAux startRow (lastRow + 1 - startRow)

/-- Lines 339-343: the 15-column export projection applied to the
filtered rows before they are written into the template. -/
def exportProj (r : ReadRow) : List Value :=
  [r.item, r.cant, r.numOC, r.factura, r.codigo, r.modelo, r.descripcion,
   r.material, r.uso, r.paisOrigen, r.moneda, r.precioUnitario, r.subTotal,
   r.flete, r.precioTotal]

/-- Lines 371-382: the summary fields stamped into fixed template cells
(the reformatted invoice date is stored back into `info` at line 374 but
never written to a cell). -/
def stampWrites (info : SummaryInfo) : List (String × Value) :=
  [("D2", info.transportista), ("D4", info.nEmbarque),
   ("D5", info.airWaybill), ("K2", info.proveedor),
   ("K3", info.incoterm), ("K4", info.formaPago),
   ("K5", info.estado), ("K6", info.marca)]

/-- The Python exceptions the export body can raise.  `indexError` is
`df_filtered.iloc[0]` on an empty frame (line 326); `httpExc` is the
`HTTPException` raised at line 346; `valueError` is
`pd.to_datetime(...)` / `.strftime(...)` on a missing date (lines
373-374). -/
inductive PyExc where
  | indexError : PyExc
  | httpExc : Nat → String → PyExc
  | valueError : PyExc
deriving DecidableEq, Repr

/-- Everything the export writes into the saved workbook. -/
structure ExportArtifacts where
  newRef : TableRef
  cells : List CellWrite
  formulas : List FormulaWrite
  stamps : List (String × Value)
deriving DecidableEq, Repr

/-- `pd.to_datetime(fecha)` followed by `.strftime('%d/%m/%Y')` (lines
373-374): raises on a missing date (NaT); the reformatting of present
dates is not itself claim-relevant and is modelled as the identity. -/
def fmtFecha (v : Value) : Option Value :=
  if isna v then Option.none else some v

/-- Lines 326-385 of `exportar_datos`, from the already-filtered frame:
`primera_fila = df_filtered.iloc[0]` (raising IndexError when the filter
kept nothing), summary extraction, 15-column projection, the
empty-frame check of lines 345-347 (unreachable: reaching it implies the
frame was non-empty), the cell/table-ref/formula writes and the summary
stamps. -/
def exportarBody (t : TableRef) (fd : List ReadRow) : Except PyExc ExportArtifacts :=
  match fd with
  | [] => .error .indexError
  | first :: rest =>
    let info := extractInfo first
    let proj := (first :: rest).map exportProj
    if proj.isEmpty then
      .error (.httpExc 404 "No se encontraron datos para exportar")
    else
      match fmtFecha first.fechaFactura with
      | Option.none => .error .valueError
      | some _ =>
        .ok { newRef := tableRefAfter t proj,
              cells := appendRows t proj,
              formulas := writeFormulas (t.maxRow + 1) (lastRowAfter t proj),
              stamps := stampWrites info }

/-- Outcome of `POST /export`: a saved workbook or an `HTTPException`. -/
inductive ExportResult where
  | fileOut : ExportArtifacts → ExportResult
  | err : Nat → String → ExportResult
deriving DecidableEq, Repr

/-- `POST /export` (`exportar_datos`, lines 279-399), starting from the
joined frame and the template table extent.  The handler chain of lines
392-399 has `except FileNotFoundError` (404; file presence is not
modelled — inputs are given) and a blanket `except Exception` that turns
EVERY other in-body exception — the IndexError from `iloc[0]` on an
empty filter result, and even the `HTTPException(404)` of line 346 —
into a fresh HTTP 500 `"Error al exportar: ..."`. -/
def exportar_datos (t : TableRef) (joined : List JoinedRow) (mode : FilterMode) (v : String) : ExportResult :=
  let df := joined.map exportRowOfJoined
  let fd := df.filter (rowMatches mode v)
  match exportarBody t fd with
  | .ok a => .fileOut a
  | .error _ => .err 500 "Error al exportar"

/-! ## Lemmas about `keepFirst` (the `~duplicated()` masks) -/

theorem keepFirst_sublist {α β : Type} [DecidableEq β] (f : α → β) :
    ∀ (l : List α) (seen : List β), List.Sublist (keepFirst f l seen) l := by
  intro l
  induction l with
  | nil => intro seen; simp [keepFirst]
  | cons a tl ih =>
    intro seen
    by_cases h : f a ∈ seen
    · simpa [keepFirst, h] using (ih seen).cons a
    · simpa [keepFirst, h] using (ih (f a :: seen)).cons₂ a

theorem mem_keepFirst {α β : Type} [DecidableEq β] (f : α → β) :
    ∀ (l : List α) (seen : List β) (x : α),
      x ∈ keepFirst f l seen ↔
        f x ∉ seen ∧ ∃ l₁ l₂, l = l₁ ++ x :: l₂ ∧ ∀ y ∈ l₁, f y ≠ f x := by
  intro l
  induction l with
  | nil =>
    intro seen x
    simp [keepFirst]
  | cons a tl ih =>
    intro seen x
    by_cases h : f a ∈ seen
    · rw [keepFirst, if_pos h, ih seen x]
      constructor
      · rintro ⟨hx, t₁, t₂, rfl, hne⟩
        refine ⟨hx, a :: t₁, t₂, rfl, ?_⟩
        intro y hy
        rcases List.mem_cons.mp hy with rfl | hy
        · intro hfa; exact hx (hfa ▸ h)
        · exact hne y hy
      · rintro ⟨hx, l₁, l₂, hdec, hne⟩
        refine ⟨hx, ?_⟩
        cases l₁ with
        | nil =>
          simp at hdec
          exact absurd (hdec.1 ▸ h) hx
        | cons b t₁ =>
          simp only [List.cons_append, List.cons.injEq] at hdec
          exact ⟨t₁, l₂, hdec.2, fun y hy => hne y (List.mem_cons_of_mem b hy)⟩
    · rw [keepFirst, if_neg h]
      simp only [List.mem_cons, ih (f a :: seen) x]
      constructor
      · rintro (rfl | ⟨hx, t₁, t₂, rfl, hne⟩)
        · exact ⟨h, [], tl, rfl, by simp⟩
        · simp only [List.mem_cons, not_or] at hx
          refine ⟨hx.2, a :: t₁, t₂, rfl, ?_⟩
          intro y hy
          rcases List.mem_cons.mp hy with rfl | hy
          · exact fun hfa => hx.1 hfa.symm
          · exact hne y hy
      · rintro ⟨hx, l₁, l₂, hdec, hne⟩
        cases l₁ with
        | nil =>
          simp only [List.nil_append, List.cons.injEq] at hdec
          exact Or.inl hdec.1.symm
        | cons b t₁ =>
          simp only [List.cons_append, List.cons.injEq] at hdec
          obtain ⟨rfl, htl⟩ := hdec
          refine Or.inr ⟨?_, t₁, l₂, htl, fun y hy => hne y (List.mem_cons_of_mem a hy)⟩
          simp only [List.mem_cons, not_or]
          exact ⟨fun hfa => hne a (List.mem_cons_self a t₁) hfa.symm, hx⟩

theorem keepFirst_map_nodup {α β : Type} [DecidableEq β] (f : α → β) :
    ∀ (l : List α) (seen : List β),
      ((keepFirst f l seen).map f).Nodup ∧
        ∀ b ∈ (keepFirst f l seen).map f, b ∉ seen := by
  intro l
  induction l with
  | nil => intro seen; simp [keepFirst]
  | cons a tl ih =>
    intro seen
    by_cases h : f a ∈ seen
    · simpa [keepFirst, h] using ih seen
    · obtain ⟨hnd, hni⟩ := ih (f a :: seen)
      rw [keepFirst, if_neg h]
      simp only [List.map_cons, List.nodup_cons]
      refine ⟨⟨fun hmem => ?_, hnd⟩, ?_⟩
      · exact (hni (f a) hmem) (List.mem_cons_self _ _)
      · intro b hb
        rcases List.mem_cons.mp hb with rfl | hb
        · exact h
        · exact fun hbs => hni b hb (List.mem_cons_of_mem _ hbs)

/-- The `Modelo` column of the deduplicated reference table has no
duplicates (shared by the invariant claim and the join-shape claim). -/
theorem dedupRef_modelo_nodup (rows : List RefRow) :
    ((dedupRef rows).map RefRow.modelo).Nodup :=
  (keepFirst_map_nodup RefRow.modelo (keepFirst refKey rows []) []).1

/-- Every surviving reference row comes from the input table. -/
theorem dedupRef_subset (rows : List RefRow) : dedupRef rows ⊆ rows :=
  ((keepFirst_sublist RefRow.modelo (keepFirst refKey rows []) []).trans
    (keepFirst_sublist refKey rows [])).subset

/-! ## Lemmas about the left join -/

theorem matchKey_true_iff (l r : Value) :
    matchKey l r = true ↔ (isna l = true ∧ isna r = true) ∨ l = r := by
  simp [matchKey, Bool.and_eq_true, Bool.or_eq_true, beq_iff_eq]

/-- A missing value that is not the Python `None` object is NaN. -/
theorem isna_ne_null_eq_nan (v : Value) (h : isna v = true)
    (hn : v ≠ Value.null) : v = Value.nan := by
  cases v <;> simp_all [isna]

/-- Two reference rows matched by the same join key have equal `Modelo`
cells, provided neither `Modelo` is the Python `None` object (pandas
frames read from disk hold NaN, never `None`, for missing cells, so the
single NA match group collapses to the single value `Value.nan`). -/
theorem matchKey_modelo_eq (k m m' : Value)
    (h1 : matchKey k m = true) (h2 : matchKey k m' = true)
    (hn : m ≠ Value.null) (hn' : m' ≠ Value.null) : m = m' := by
  rcases (matchKey_true_iff k m).mp h1 with ⟨hk1, hm1⟩ | heq1
  · rcases (matchKey_true_iff k m').mp h2 with ⟨hk2, hm2⟩ | heq2
    · rw [isna_ne_null_eq_nan m hm1 hn, isna_ne_null_eq_nan m' hm2 hn']
    · have hm2 : isna m' = true := heq2 ▸ hk1
      rw [isna_ne_null_eq_nan m hm1 hn, isna_ne_null_eq_nan m' hm2 hn']
  · rcases (matchKey_true_iff k m').mp h2 with ⟨hk2, hm2⟩ | heq2
    · have hm1 : isna m = true := heq1 ▸ hk2
      rw [isna_ne_null_eq_nan m hm1 hn, isna_ne_null_eq_nan m' hm2 hn']
    · exact heq1.symm.trans heq2

theorem merge_single (p : PurchaseRow) (right : List RefRow)
    (h : (right.map RefRow.modelo).Nodup)
    (hnn : ∀ r ∈ right, r.modelo ≠ Value.null) :
    (match right.filter (fun r => matchKey p.codigoComercial (refCodigoComercial r)) with
     | [] => [joinNull p]
     | ms => ms.map (joinWith p)) = [joinRow right p] := by
  induction right with
  | nil => rfl
  | cons r rs ih =>
    simp only [List.map_cons, List.nodup_cons] at h
    by_cases hq : matchKey p.codigoComercial (refCodigoComercial r) = true
    · have hrs : rs.filter (fun r' => matchKey p.codigoComercial (refCodigoComercial r')) = [] := by
        rw [List.filter_eq_nil_iff]
        intro r' hr' hq'
        have hmm : r.modelo = r'.modelo :=
          matchKey_modelo_eq p.codigoComercial r.modelo r'.modelo hq hq'
            (hnn r (List.mem_cons_self r rs))
            (hnn r' (List.mem_cons_of_mem r hr'))
        apply h.1
        rw [hmm]
        exact List.mem_map_of_mem RefRow.modelo hr'
      have hfc : List.filter (fun r' => matchKey p.codigoComercial (refCodigoComercial r')) (r :: rs)
          = r :: List.filter (fun r' => matchKey p.codigoComercial (refCodigoComercial r')) rs := by
        simp [List.filter_cons, hq]
      have hfd : List.find? (fun r' => matchKey p.codigoComercial (refCodigoComercial r')) (r :: rs)
          = some r := by
        simp [List.find?, hq]
      rw [show (fun r' => matchKey p.codigoComercial (refCodigoComercial r'))
            = (fun r => matchKey p.codigoComercial (refCodigoComercial r)) from rfl] at hfc hfd
      rw [hfc, hrs, joinRow, hfd]
      rfl
    · have hq' : matchKey p.codigoComercial (refCodigoComercial r) = false :=
        Bool.not_eq_true _ ▸ Bool.of_not_eq_true hq
      have hfc : List.filter (fun r' => matchKey p.codigoComercial (refCodigoComercial r')) (r :: rs)
          = List.filter (fun r' => matchKey p.codigoComercial (refCodigoComercial r')) rs := by
        simp [List.filter_cons, hq']
      have hfd : List.find? (fun r' => matchKey p.codigoComercial (refCodigoComercial r')) (r :: rs)
          = List.find? (fun r' => matchKey p.codigoComercial (refCodigoComercial r')) rs := by
        simp [List.find?, hq']
      rw [hfc, joinRow, hfd, ← joinRow]
      exact ih h.2 (fun r' hr' => hnn r' (List.mem_cons_of_mem r hr'))

theorem mergeLeft_eq_map (left : List PurchaseRow) (right : List RefRow)
    (h : (right.map RefRow.modelo).Nodup)
    (hnn : ∀ r ∈ right, r.modelo ≠ Value.null) :
    mergeLeft left right = left.map (joinRow right) := by
  induction left with
  | nil => rfl
  | cons p ps ih =>
    rw [mergeLeft, merge_single p right h hnn, List.map_cons, ih]
    rfl

/-! ## Sample data for concrete witnesses and counterexamples -/

/-- A concrete purchase row (shipment `E1`, waybill `W1`, missing
invoice date and freight). -/
def samplePurchase : PurchaseRow :=
  { codigoComercial := .str "M1", item := .num 1, cantidad := .str "12.5",
    numOC := .str "OC1", numInvoice := .str "F1", pcu1 := .num 4,
    fleteUS := .nan, moneda := .str "USD", paisOrigen := .str "PE",
    operadorLogistico := .nan, fechaInvoice := .nan,
    grupoImportacion := .str "E1", numDocTransporte := .str "W1",
    razonSocialProveedor := .str "ACME", incoterm := .str "FOB",
    formaPago := .str "30D", statusOCI := .str "OK" }

/-- A concrete reference row matching `samplePurchase`. -/
def sampleRef : RefRow :=
  { modelo := .str "M1", codigo := .str "C1", descripcion := .str "D",
    material := .str "X", uso := .str "U", marca := .str "B" }

/-- The joined row for the sample purchase and reference rows. -/
def sampleJoined : JoinedRow :=
  joinWith samplePurchase sampleRef

/-- A joined row whose `Nº EMBARQUE` cell is missing (NaN). -/
def nanEmbarqueJoined : JoinedRow :=
  joinNull { samplePurchase with grupoImportacion := .nan }

/-- A concrete template table extent: `Tabla24` spanning `B1:P9`
(min_col 2, max_col 16), as the hard-coded formula columns assume. -/
def sampleTable : TableRef :=
  { minCol := 2, minRow := 1, maxCol := 16, maxRow := 9 }

/-! ## Lemmas about the case-insensitive substring test -/

theorem startsWithList_iff (pat hay : List Char) :
    startsWithList hay pat = true ↔ ∃ r, hay = pat ++ r := by
  induction pat generalizing hay with
  | nil => simp [startsWithList]
  | cons p ps ih =>
    cases hay with
    | nil => simp [startsWithList]
    | cons h hs =>
      have hrfl : startsWithList (h :: hs) (p :: ps) = (h == p && startsWithList hs ps) := rfl
      rw [hrfl, Bool.and_eq_true, beq_iff_eq, ih hs]
      simp [List.cons_append, List.cons.injEq, exists_and_left]

theorem containsList_iff (hay pat : List Char) :
    containsList hay pat = true ↔ ∃ l r, hay = l ++ pat ++ r := by
  induction hay with
  | nil =>
    cases pat with
    | nil => simp [containsList, startsWithList]
    | cons p ps =>
      simp only [containsList, startsWithList, Bool.false_eq_true, if_false]
      simp
  | cons a hs ih =>
    have hrfl : containsList (a :: hs) pat
        = if startsWithList (a :: hs) pat then true else containsList hs pat := rfl
    by_cases hsw : startsWithList (a :: hs) pat = true
    · rw [hrfl, if_pos hsw]
      obtain ⟨r, hr⟩ := (startsWithList_iff pat (a :: hs)).mp hsw
      exact iff_of_true rfl ⟨[], r, by simpa using hr⟩
    · rw [hrfl, if_neg hsw, ih]
      constructor
      · rintro ⟨l, r, rfl⟩
        exact ⟨a :: l, r, rfl⟩
      · rintro ⟨l, r, heq⟩
        cases l with
        | nil =>
          exfalso
          apply hsw
          rw [startsWithList_iff]
          exact ⟨r, by simpa using heq⟩
        | cons b l₂ =>
          rw [List.cons_append, List.cons_append, List.cons.injEq] at heq
          exact ⟨l₂, r, heq.2⟩

theorem strContainsCI_iff (hay pat : String) :
    strContainsCI hay pat = true ↔ CISubstring pat hay :=
  containsList_iff (lcList hay.data) (lcList pat.data)

/-! ## Claim theorems -/

/-- C3: reference deduplication is order-preserving and runs its two
steps in the fixed order composite-key dedup then `Modelo` dedup
(`dedupRef` is literally `keepFirst RefRow.modelo (keepFirst refKey rows []) []`):
the result is a sublist of the input; a row survives step 1 iff it is
the first row in original order bearing its composite key (no earlier
composite-key clash); and a row survives both steps iff it survives
step 1 and is the first step-1 survivor bearing its `Modelo` — i.e. the
surviving row for a given `Modelo` is the first row, in original order,
among those rows with no earlier composite-key clash. -/
theorem C3_dedup_characterization (rows : List RefRow) :
    List.Sublist (dedupRef rows) rows ∧
    (∀ x, x ∈ keepFirst refKey rows [] ↔
      ∃ l₁ l₂, rows = l₁ ++ x :: l₂ ∧ ∀ y ∈ l₁, refKey y ≠ refKey x) ∧
    (∀ x, x ∈ dedupRef rows ↔
      x ∈ keepFirst refKey rows [] ∧
        ∃ l₁ l₂, keepFirst refKey rows [] = l₁ ++ x :: l₂ ∧
          ∀ y ∈ l₁, y.modelo ≠ x.modelo) := by
  refine ⟨?_, ?_, ?_⟩
  · exact (keepFirst_sublist RefRow.modelo _ []).trans (keepFirst_sublist refKey rows [])
  · intro x
    rw [mem_keepFirst]
    simp
  · intro x
    rw [dedupRef, mem_keepFirst]
    simp only [List.not_mem_nil, not_false_iff, true_and]
    constructor
    · rintro ⟨l₁, l₂, hdec, hne⟩
      refine ⟨?_, l₁, l₂, hdec, hne⟩
      rw [hdec]
      exact List.mem_append_right l₁ (List.mem_cons_self x l₂)
    · rintro ⟨_, l₁, l₂, hdec, hne⟩
      exact ⟨l₁, l₂, hdec, hne⟩

/-- C4: after deduplication, each `Modelo` value appears at most once,
each `Codigo_Comercial` join-key value (a copy of `Modelo`, line 199)
appears at most once, and each composite `Modelo-Codigo` key appears at
most once in the lookup table. -/
theorem C4_dedup_keys_unique (rows : List RefRow) :
    ((dedupRef rows).map RefRow.modelo).Nodup ∧
    ((dedupRef rows).map refCodigoComercial).Nodup ∧
    ((dedupRef rows).map refKey).Nodup := by
  refine ⟨dedupRef_modelo_nodup rows, dedupRef_modelo_nodup rows, ?_⟩
  have h1 : ((keepFirst refKey rows []).map refKey).Nodup :=
    (keepFirst_map_nodup refKey rows []).1
  have h2 : List.Sublist ((dedupRef rows).map refKey)
      ((keepFirst refKey rows []).map refKey) :=
    (keepFirst_sublist RefRow.modelo _ []).map refKey
  exact List.Nodup.sublist h2 h1

/-- C2 counterexample: the claim says a row whose target column is
null/missing is never retained, for any query value.  But the filter is
`astype(str)` followed by `str.contains`, and `astype(str)` renders a
missing cell as the literal string `"nan"`; a row with a missing
`Nº EMBARQUE` is therefore retained for query `"nan"` (and for `"A"`,
since the match is case-insensitive). -/
theorem C2_nan_cell_matches :
    isna (targetColumn FilterMode.embarque (readRowOfJoined nanEmbarqueJoined)) = true ∧
    rowMatches FilterMode.embarque "nan" (readRowOfJoined nanEmbarqueJoined) = true ∧
    rowMatches FilterMode.embarque "A" (readRowOfJoined nanEmbarqueJoined) = true := by
  decide

/-- C2 (amended): a row is retained iff the string representation of the
target column's cell contains the (regex-free) query value as a
case-insensitive substring, where a missing cell's string representation
is the literal `"nan"` — so a missing cell is retained exactly when the
query is a case-insensitive substring of `"nan"`, rather than never. -/
theorem C2_filter_semantics (mode : FilterMode) (v : String) (r : ReadRow) :
    (rowMatches mode v r = true ↔ CISubstring v (astypeStr (targetColumn mode r))) ∧
    (targetColumn mode r = Value.nan →
      (rowMatches mode v r = true ↔ CISubstring v "nan")) := by
  constructor
  · exact strContainsCI_iff (astypeStr (targetColumn mode r)) v
  · intro h
    rw [rowMatches, h]
    exact strContainsCI_iff "nan" v

/-- Witness for `C2_filter_semantics` at a concrete missing-cell row and
query `"NA"`. -/
theorem C2_filter_semantics_witness :
    targetColumn FilterMode.embarque (readRowOfJoined nanEmbarqueJoined) = Value.nan ∧
    (rowMatches FilterMode.embarque "NA" (readRowOfJoined nanEmbarqueJoined) = true ↔
      CISubstring "NA" "nan") :=
  ⟨by decide,
   (C2_filter_semantics FilterMode.embarque "NA" (readRowOfJoined nanEmbarqueJoined)).2
     (by decide)⟩

/-- C5: against a deduplicated reference table, the left join yields
exactly one output row per purchase row (`mergeLeft` is a `map`), so the
output has the purchase table's length and order; each output row
carries its purchase row unchanged; and a purchase row matching no
reference key — missing keys matching each other, since `pd.merge` puts
all NA keys in one shared match group — gets NaN in every
reference-only field.  The hypothesis says the source reference frame
holds no Python `None` in its `Modelo` column: frames freshly read by
`read_excel` represent missing cells as NaN, never `None` (the
NaN→None replace happens only on the read path, after this merge), so
at most one row of the deduplicated table carries a missing key. -/
theorem C5_left_join_shape (purchases : List PurchaseRow) (refRows : List RefRow)
    (hsrc : ∀ r ∈ refRows, r.modelo ≠ Value.null) :
    mergeLeft purchases (dedupRef refRows)
      = purchases.map (joinRow (dedupRef refRows)) ∧
    (mergeLeft purchases (dedupRef refRows)).length = purchases.length ∧
    (∀ p, (joinRow (dedupRef refRows) p).toPurchaseRow = p) ∧
    (∀ p, (∀ r ∈ dedupRef refRows,
        matchKey p.codigoComercial (refCodigoComercial r) = false) →
      (joinRow (dedupRef refRows) p).modelo = Value.nan ∧
      (joinRow (dedupRef refRows) p).codigo = Value.nan ∧
      (joinRow (dedupRef refRows) p).descripcion = Value.nan ∧
      (joinRow (dedupRef refRows) p).material = Value.nan ∧
      (joinRow (dedupRef refRows) p).uso = Value.nan ∧
      (joinRow (dedupRef refRows) p).marca = Value.nan) := by
  have hnn : ∀ r ∈ dedupRef refRows, r.modelo ≠ Value.null := fun r hr =>
    hsrc r (dedupRef_subset refRows hr)
  have hmap := mergeLeft_eq_map purchases (dedupRef refRows)
    (dedupRef_modelo_nodup refRows) hnn
  refine ⟨hmap, by rw [hmap, List.length_map], ?_, ?_⟩
  · intro p
    rw [joinRow]
    cases hf : List.find? (fun r => matchKey p.codigoComercial (refCodigoComercial r))
        (dedupRef refRows) with
    | none => rfl
    | some r => rfl
  · intro p hnone
    have hf : List.find? (fun r => matchKey p.codigoComercial (refCodigoComercial r))
        (dedupRef refRows) = Option.none := by
      rw [List.find?_eq_none]
      intro x hx
      simp [hnone x hx]
    rw [joinRow, hf]
    exact ⟨rfl, rfl, rfl, rfl, rfl, rfl⟩

/-- Witness for `C5_left_join_shape`: a matched sample table, and an
unmatched purchase row receiving NaN reference fields. -/
theorem C5_left_join_shape_witness :
    (mergeLeft [samplePurchase] (dedupRef [sampleRef])).length
      = [samplePurchase].length ∧
    (joinRow (dedupRef [sampleRef])
        { samplePurchase with codigoComercial := Value.str "M2" }).modelo = Value.nan :=
  ⟨(C5_left_join_shape [samplePurchase] [sampleRef] (by decide)).2.1,
   ((C5_left_join_shape [{ samplePurchase with codigoComercial := Value.str "M2" }]
       [sampleRef] (by decide)).2.2.2
     { samplePurchase with codigoComercial := Value.str "M2" } (by decide)).1⟩

/-- `coerceNum` agrees with the specification-level coercion on every
non-infinite value. -/
theorem coerceNum_eq_spec (v : Value) (h1 : v ≠ Value.inf) (h2 : v ≠ Value.ninf) :
    coerceNum v = Value.num (coerceSpec v) := by
  cases v with
  | nan => rfl
  | null => rfl
  | num q => rfl
  | str s =>
    cases hp : parseNumeric s with
    | none => simp [coerceNum, toNumeric, coerceSpec, hp, fillnaZero, isna]
    | some q => simp [coerceNum, toNumeric, coerceSpec, hp, fillnaZero, isna]
  | inf => exact absurd rfl h1
  | ninf => exact absurd rfl h2

/-- C6: on the read path the three monetary columns are coerced to
numbers (missing, `None`, `""`, `"abc"` all to 0; `"12.5"` to 12.5) and
then `Sub Total = PCU1 * Cantidad` and
`Precio Total = Sub Total + Flete_US$` are computed from the coerced
values. -/
theorem C6_numeric_coercion (j : JoinedRow)
    (hp1 : j.pcu1 ≠ Value.inf) (hp2 : j.pcu1 ≠ Value.ninf)
    (hc1 : j.cantidad ≠ Value.inf) (hc2 : j.cantidad ≠ Value.ninf)
    (hf1 : j.fleteUS ≠ Value.inf) (hf2 : j.fleteUS ≠ Value.ninf) :
    (readRowOfJoined j).precioUnitario = Value.num (coerceSpec j.pcu1) ∧
    (readRowOfJoined j).cant = Value.num (coerceSpec j.cantidad) ∧
    (readRowOfJoined j).flete = Value.num (coerceSpec j.fleteUS) ∧
    (readRowOfJoined j).subTotal
      = Value.num (coerceSpec j.pcu1 * coerceSpec j.cantidad) ∧
    (readRowOfJoined j).precioTotal
      = Value.num (coerceSpec j.pcu1 * coerceSpec j.cantidad + coerceSpec j.fleteUS) ∧
    coerceSpec (Value.str "abc") = 0 ∧ coerceSpec Value.nan = 0 ∧
    coerceSpec Value.null = 0 ∧ coerceSpec (Value.str "") = 0 ∧
    coerceSpec (Value.str "12.5") = (25 : Rat) / 2 := by
  have e1 := coerceNum_eq_spec j.pcu1 hp1 hp2
  have e2 := coerceNum_eq_spec j.cantidad hc1 hc2
  have e3 := coerceNum_eq_spec j.fleteUS hf1 hf2
  have h125 : coerceSpec (Value.str "12.5") = (25 : Rat) / 2 := by
    have hr : coerceSpec (Value.str "12.5")
        = ((12 : Nat) : Rat) + ((5 : Nat) : Rat) / (10 : Rat) ^ (1 : Nat) := rfl
    rw [hr]
    norm_num
  refine ⟨?_, ?_, ?_, ?_, ?_, by decide, rfl, rfl, by decide, h125⟩
  · simpa [readRowOfJoined] using e1
  · simpa [readRowOfJoined] using e2
  · simpa [readRowOfJoined] using e3
  · simp [readRowOfJoined, e1, e2, vMul]
  · simp [readRowOfJoined, e1, e2, e3, vMul, vAdd]

/-- Witness for `C6_numeric_coercion` at the sample joined row
(`PCU1 = 4`, `Cantidad = "12.5"`, missing freight). -/
theorem C6_numeric_coercion_witness :
    (readRowOfJoined sampleJoined).subTotal
      = Value.num (coerceSpec sampleJoined.pcu1 * coerceSpec sampleJoined.cantidad) ∧
    (readRowOfJoined sampleJoined).precioTotal
      = Value.num (coerceSpec sampleJoined.pcu1 * coerceSpec sampleJoined.cantidad
          + coerceSpec sampleJoined.fleteUS) :=
  ⟨(C6_numeric_coercion sampleJoined (by decide) (by decide) (by decide) (by decide)
      (by decide) (by decide)).2.2.2.1,
   (C6_numeric_coercion sampleJoined (by decide) (by decide) (by decide) (by decide)
      (by decide) (by decide)).2.2.2.2.1⟩

/-! ## Lemmas about the workbook writer -/

theorem mem_writeRowCells (w : CellWrite) (vs : List Value) :
    ∀ cs ri, w ∈ writeRowCells ri cs vs ↔
      ∃ j, j < vs.length ∧ w = ⟨ri, cs + j, vs.getD j Value.nan⟩ := by
  induction vs with
  | nil =>
    intro cs ri
    simp [writeRowCells]
  | cons v vs ih =>
    intro cs ri
    rw [writeRowCells, List.mem_cons, ih (cs + 1) ri]
    constructor
    · rintro (rfl | ⟨j, hj, rfl⟩)
      · exact ⟨0, Nat.succ_pos _, by simp⟩
      · refine ⟨j + 1, by simp only [List.length_cons]; omega, ?_⟩
        have harith : cs + 1 + j = cs + (j + 1) := by omega
        rw [harith]
        simp
    · rintro ⟨j, hj, rfl⟩
      cases j with
      | zero => exact Or.inl (by simp)
      | succ j₂ =>
        refine Or.inr ⟨j₂, by simp only [List.length_cons] at hj; omega, ?_⟩
        have harith : cs + (j₂ + 1) = cs + 1 + j₂ := by omega
        rw [harith]
        simp

theorem mem_writeRowsFrom (w : CellWrite) (rows : List (List Value)) :
    ∀ ri mc, w ∈ writeRowsFrom ri mc rows ↔
      ∃ i, i < rows.length ∧ w ∈ writeRowCells (ri + i) mc (rows.getD i []) := by
  induction rows with
  | nil =>
    intro ri mc
    simp [writeRowsFrom]
  | cons r rs ih =>
    intro ri mc
    rw [writeRowsFrom, List.mem_append, ih (ri + 1) mc]
    constructor
    · rintro (hw | ⟨i, hi, hw⟩)
      · exact ⟨0, Nat.succ_pos _, by simpa using hw⟩
      · refine ⟨i + 1, by simp only [List.length_cons]; omega, ?_⟩
        have harith : ri + 1 + i = ri + (i + 1) := by omega
        rw [harith] at hw
        simpa using hw
    · rintro ⟨i, hi, hw⟩
      cases i with
      | zero => exact Or.inl (by simpa using hw)
      | succ i₂ =>
        refine Or.inr ⟨i₂, by simp only [List.length_cons] at hi; omega, ?_⟩
        have harith : ri + (i₂ + 1) = ri + 1 + i₂ := by omega
        rw [← harith]
        simpa using hw

theorem mem_writeFormulasAux (fw : FormulaWrite) :
    ∀ (k s : Nat), fw ∈ writeFormulasAux s k ↔
      ∃ r, s ≤ r ∧ r < s + k ∧ fw ∈ rowFormulas r := by
  intro k
  induction k with
  | zero =>
    intro s
    rw [writeFormulasAux]
    constructor
    · intro h
      exact absurd h (List.not_mem_nil fw)
    · rintro ⟨r, h1, h2, _⟩
      omega
  | succ n ih =>
    intro s
    rw [writeFormulasAux, List.mem_append, ih (s + 1)]
    constructor
    · rintro (hw | ⟨r, h1, h2, hw⟩)
      · exact ⟨s, le_refl s, by omega, hw⟩
      · exact ⟨r, by omega, by omega, hw⟩
    · rintro ⟨r, h1, h2, hw⟩
      by_cases hr : r = s
      · exact Or.inl (hr ▸ hw)
      · exact Or.inr ⟨r, by omega, by omega, hw⟩

/-- C7: for an export of `n ≥ 1` filtered rows against a template whose
table starts at column B (`min_col = 2`, which the hard-coded formula
columns C/M/N/O/P assume), the first data cell is written at the first
row directly below the table extent and in the table's leftmost column;
the table's declared range keeps its columns and `min_row` and grows by
exactly `n` rows; every data cell lands at row `max_row + 1 + i`
(`i < n`) and column `min_col + j` (`j < 15`, the export projection's
width); and the formula writes are exactly, for each newly written row
`r`, a product of that row's unit-price cell (`min_col + 11`, column M)
and quantity cell (`min_col + 1`, column C) stored in that row's
sub-total cell (`min_col + 12`, column N), and a sum of that row's
freight cell (`min_col + 13`, column O) and that same sub-total cell
stored in that row's total cell (`min_col + 14`, column P) — every cell
reference carries the row `r` being written, and no other row. -/
theorem C7_export_writes (t : TableRef) (fd : List ReadRow)
    (hcol : t.minCol = 2) (hn : 1 ≤ fd.length) :
    tableRefAfter t (fd.map exportProj)
      = ⟨t.minCol, t.minRow, t.maxCol, t.maxRow + fd.length⟩ ∧
    (∃ v, (appendRows t (fd.map exportProj)).head?
      = some ⟨t.maxRow + 1, t.minCol, v⟩) ∧
    (∀ row ∈ fd.map exportProj, row.length = 15) ∧
    (∀ w, w ∈ appendRows t (fd.map exportProj) ↔
      ∃ i j, i < fd.length ∧ j < 15 ∧
        w = ⟨t.maxRow + 1 + i, t.minCol + j,
              ((fd.map exportProj).getD i []).getD j Value.nan⟩) ∧
    (∀ fw, fw ∈ writeFormulas (t.maxRow + 1) (lastRowAfter t (fd.map exportProj)) ↔
      ∃ r, t.maxRow + 1 ≤ r ∧ r ≤ t.maxRow + fd.length ∧
        (fw = ⟨⟨t.minCol + 12, r⟩, Formula.mulRef ⟨t.minCol + 11, r⟩ ⟨t.minCol + 1, r⟩⟩ ∨
         fw = ⟨⟨t.minCol + 14, r⟩, Formula.addRef ⟨t.minCol + 13, r⟩ ⟨t.minCol + 12, r⟩⟩)) := by
  have hlen : ∀ row ∈ fd.map exportProj, row.length = 15 := by
    intro row hrow
    obtain ⟨r, _, rfl⟩ := List.mem_map.mp hrow
    rfl
  refine ⟨?_, ?_, hlen, ?_, ?_⟩
  · rw [tableRefAfter, lastRowAfter, List.length_map]
  · cases fd with
    | nil => exact absurd hn (by simp)
    | cons f rest => exact ⟨f.item, rfl⟩
  · intro w
    rw [appendRows, mem_writeRowsFrom]
    constructor
    · rintro ⟨i, hi, hw⟩
      rw [mem_writeRowCells] at hw
      obtain ⟨j, hj, rfl⟩ := hw
      rw [List.length_map] at hi
      refine ⟨i, j, hi, ?_, rfl⟩
      have h15 : ((fd.map exportProj).getD i []).length = 15 := by
        apply hlen
        rw [List.getD_eq_get _ _ (by simpa using hi)]
        exact List.get_mem _ _ _
      omega
    · rintro ⟨i, j, hi, hj, rfl⟩
      have hi' : i < (fd.map exportProj).length := by simpa using hi
      refine ⟨i, hi', ?_⟩
      rw [mem_writeRowCells]
      refine ⟨j, ?_, rfl⟩
      have h15 : ((fd.map exportProj).getD i []).length = 15 := by
        apply hlen
        rw [List.getD_eq_get _ _ hi']
        exact List.get_mem _ _ _
      omega
  · intro fw
    rw [writeFormulas, mem_writeFormulasAux]
    have hcount : lastRowAfter t (fd.map exportProj) + 1 - (t.maxRow + 1) = fd.length := by
      rw [lastRowAfter, List.length_map]
      omega
    rw [hcount]
    constructor
    · rintro ⟨r, h1, h2, hw⟩
      refine ⟨r, h1, by omega, ?_⟩
      rcases List.mem_cons.mp hw with rfl | hw
      · exact Or.inl (by simp [hcol])
      · rcases List.mem_cons.mp hw with rfl | hw
        · exact Or.inr (by simp [hcol])
        · exact absurd hw (List.not_mem_nil fw)
    · rintro ⟨r, h1, h2, hw⟩
      refine ⟨r, h1, by omega, ?_⟩
      rcases hw with rfl | rfl
      · simp [rowFormulas, hcol]
      · simp [rowFormulas, hcol]

/-- Witness for `C7_export_writes`: one filtered sample row against the
`B1:P9` sample table — the extent grows to `B1:P10`. -/
theorem C7_export_writes_witness :
    sampleTable.minCol = 2 ∧ 1 ≤ [exportRowOfJoined sampleJoined].length ∧
    tableRefAfter sampleTable ([exportRowOfJoined sampleJoined].map exportProj)
      = ⟨sampleTable.minCol, sampleTable.minRow, sampleTable.maxCol,
          sampleTable.maxRow + [exportRowOfJoined sampleJoined].length⟩ :=
  ⟨rfl, by decide,
   (C7_export_writes sampleTable [exportRowOfJoined sampleJoined] rfl (by decide)).1⟩

/-! ## Summary-field and serialization lemmas -/

/-- A missing value (NaN or None) is replaced by `None`. -/
theorem replaceSpecial_isna (v : Value) (h : isna v = true) :
    replaceSpecial v = Value.null := by
  cases v <;> simp_all [isna, replaceSpecial]

/-- `replaceSpecial` never leaves NaN or an infinity behind. -/
theorem replaceSpecial_clean (v : Value) :
    replaceSpecial v ≠ Value.nan ∧ replaceSpecial v ≠ Value.inf ∧
      replaceSpecial v ≠ Value.ninf := by
  cases v <;> simp [replaceSpecial]

/-- All 24 columns of a read-path output record. -/
def rowFields (r : ReadRow) : List Value :=
  [r.item, r.cant, r.numOC, r.factura, r.codigo, r.modelo, r.descripcion,
   r.material, r.uso, r.paisOrigen, r.moneda, r.precioUnitario, r.subTotal,
   r.flete, r.precioTotal, r.transportista, r.fechaFactura, r.nEmbarque,
   r.airWaybill, r.proveedor, r.incoterm, r.formaPago, r.estado, r.marca]

/-- After `postProcess` no column holds NaN or an infinity, and the
`FECHA FACTURA` column is a string. -/
theorem postProcess_clean (r : ReadRow) :
    (∀ x ∈ rowFields (postProcess r),
      x ≠ Value.nan ∧ x ≠ Value.inf ∧ x ≠ Value.ninf) ∧
    ∃ s, (postProcess r).fechaFactura = Value.str s := by
  constructor
  · intro x hx
    simp only [postProcess, mapRow, rowFields, List.mem_cons,
      List.not_mem_nil, or_false] at hx
    rcases hx with rfl|rfl|rfl|rfl|rfl|rfl|rfl|rfl|rfl|rfl|rfl|rfl|rfl|rfl|rfl|rfl|rfl|rfl|rfl|rfl|rfl|rfl|rfl|rfl
    all_goals first
      | exact replaceSpecial_clean _
      | exact ⟨by simp, by simp, by simp⟩
  · exact ⟨_, rfl⟩

/-! ## Remaining claim theorems -/

/-- C9: a read request whose filter retains no rows returns the HTTP 200
body with empty data, null info and a not-found message — not an
error. -/
theorem C9_empty_read_ok (joined : List JoinedRow) (mode : FilterMode) (v : String)
    (h : (joined.map readRowOfJoined).filter (rowMatches mode v) = []) :
    obtener_datos joined mode v =
      ReadResult.ok [] Option.none
        (some ("No se encontraron resultados para " ++ modeStr mode ++ ": " ++ v)) := by
  simp only [obtener_datos]
  rw [h]

/-- Witness for `C9_empty_read_ok`: no data at all, query `"X"`. -/
theorem C9_empty_read_ok_witness :
    obtener_datos [] FilterMode.embarque "X" =
      ReadResult.ok [] Option.none
        (some ("No se encontraron resultados para "
          ++ modeStr FilterMode.embarque ++ ": " ++ "X")) :=
  C9_empty_read_ok [] FilterMode.embarque "X" rfl

/-- C10 (implicit): every record returned by a `GET /data` success has
no NaN and no ±infinity in any column (they are replaced by `None`
before serialization), and its `FECHA FACTURA` column is stringified. -/
theorem C10_serialization_clean (joined : List JoinedRow) (mode : FilterMode)
    (v : String) (data : List ReadRow) (info : Option SummaryInfo)
    (m : Option String)
    (h : obtener_datos joined mode v = ReadResult.ok data info m) :
    ∀ r ∈ data,
      (∀ x ∈ rowFields r, x ≠ Value.nan ∧ x ≠ Value.inf ∧ x ≠ Value.ninf) ∧
        ∃ s, r.fechaFactura = Value.str s := by
  intro r hr
  revert h
  simp only [obtener_datos]
  cases hfd : (joined.map readRowOfJoined).filter (rowMatches mode v) with
  | nil =>
    intro h
    cases h
    exact absurd hr (List.not_mem_nil r)
  | cons first rest =>
    intro h
    cases h
    obtain ⟨r₂, _, rfl⟩ := List.mem_map.mp hr
    exact postProcess_clean r₂

/-- Witness for `C10_serialization_clean`: the sample row run through
the read path with query `"E1"`. -/
theorem C10_serialization_clean_witness :
    (∀ x ∈ rowFields (postProcess (readRowOfJoined sampleJoined)),
      x ≠ Value.nan ∧ x ≠ Value.inf ∧ x ≠ Value.ninf) ∧
    ∃ s, (postProcess (readRowOfJoined sampleJoined)).fechaFactura = Value.str s :=
  C10_serialization_clean [sampleJoined] FilterMode.embarque "E1"
    [postProcess (readRowOfJoined sampleJoined)]
    (some (extractInfo (postProcess (readRowOfJoined sampleJoined))))
    Option.none rfl
    (postProcess (readRowOfJoined sampleJoined)) (List.mem_singleton.mpr rfl)

/-- C1 (code bug): when the export filter retains no rows, the endpoint
does not produce the intended HTTP 404 `NoMatchingRows` response:
`primera_fila = df_filtered.iloc[0]` (line 326) runs before the empty
check of line 345 and raises `IndexError`, which the blanket
`except Exception` of line 396 converts into HTTP 500
(`"Error al exportar: ..."`); the 404 `HTTPException` of line 346, were
it ever reached, would be swallowed by the same blanket handler.  The
read path is indeed unaffected: the same empty filter on `GET /data`
yields HTTP 200.  Concrete failing input: `type=embarque`,
`value="ZZZ"` against the sample data, which matches no row. -/
theorem C1_empty_export_filter_yields_500 :
    ([sampleJoined].map exportRowOfJoined).filter
        (rowMatches FilterMode.embarque "ZZZ") = [] ∧
    exportar_datos sampleTable [sampleJoined] FilterMode.embarque "ZZZ"
      = ExportResult.err 500 "Error al exportar" ∧
    obtener_datos [sampleJoined] FilterMode.embarque "ZZZ"
      = ReadResult.ok [] Option.none
          (some "No se encontraron resultados para embarque: ZZZ") :=
  ⟨rfl, rfl, rfl⟩

/-- C8 counterexample: the claim says every summary field is the empty
string when its source value is null/missing.  On the read path the
`FECHA FACTURA` column is `astype(str)`-ified (line 247) after NaN was
replaced by `None` (line 245), so a missing invoice date reaches the
summary extraction as the literal string `"None"`, passes `pd.notna`,
and the summary field becomes `"None"`, not `""`.  Concrete input: the
sample row (missing `Fecha_Invoice`), query `embarque`/`"E1"`. -/
theorem C8_null_fecha_not_empty :
    isna sampleJoined.fechaInvoice = true ∧
    obtener_datos [sampleJoined] FilterMode.embarque "E1"
      = ReadResult.ok [postProcess (readRowOfJoined sampleJoined)]
          (some (extractInfo (postProcess (readRowOfJoined sampleJoined))))
          Option.none ∧
    (extractInfo (postProcess (readRowOfJoined sampleJoined))).fechaFactura
      = Value.str "None" ∧
    Value.str "None" ≠ Value.str "" :=
  ⟨rfl, rfl, rfl, by simp⟩

/-- C8 (amended): the summary record is extracted from the first row of
the filtered set on both paths, and every field is the empty string when
its source value is null/missing — except the invoice-date field on the
read path, which is the string `"None"` (the stringification of the
nulled cell) because the `FECHA FACTURA` column is `astype(str)`-ified
after the NaN→None replace and before extraction.  On the export path
(no such stringification) all nine fields, the date included, default
to the empty string. -/
theorem C8_summary_fields :
    (∀ r : ReadRow,
      (isna r.transportista = true → (extractInfo r).transportista = Value.str "") ∧
      (isna r.fechaFactura = true → (extractInfo r).fechaFactura = Value.str "") ∧
      (isna r.nEmbarque = true → (extractInfo r).nEmbarque = Value.str "") ∧
      (isna r.airWaybill = true → (extractInfo r).airWaybill = Value.str "") ∧
      (isna r.marca = true → (extractInfo r).marca = Value.str "") ∧
      (isna r.proveedor = true → (extractInfo r).proveedor = Value.str "") ∧
      (isna r.incoterm = true → (extractInfo r).incoterm = Value.str "") ∧
      (isna r.formaPago = true → (extractInfo r).formaPago = Value.str "") ∧
      (isna r.estado = true → (extractInfo r).estado = Value.str "")) ∧
    (∀ r : ReadRow,
      (isna r.transportista = true →
        (extractInfo (postProcess r)).transportista = Value.str "") ∧
      (isna r.nEmbarque = true →
        (extractInfo (postProcess r)).nEmbarque = Value.str "") ∧
      (isna r.airWaybill = true →
        (extractInfo (postProcess r)).airWaybill = Value.str "") ∧
      (isna r.marca = true →
        (extractInfo (postProcess r)).marca = Value.str "") ∧
      (isna r.proveedor = true →
        (extractInfo (postProcess r)).proveedor = Value.str "") ∧
      (isna r.incoterm = true →
        (extractInfo (postProcess r)).incoterm = Value.str "") ∧
      (isna r.formaPago = true →
        (extractInfo (postProcess r)).formaPago = Value.str "") ∧
      (isna r.estado = true →
        (extractInfo (postProcess r)).estado = Value.str "") ∧
      (isna r.fechaFactura = true →
        (extractInfo (postProcess r)).fechaFactura = Value.str "None")) ∧
    (∀ (joined : List JoinedRow) (mode : FilterMode) (v : String)
        (first : ReadRow) (rest : List ReadRow),
      (joined.map readRowOfJoined).filter (rowMatches mode v) = first :: rest →
      obtener_datos joined mode v
        = ReadResult.ok ((first :: rest).map postProcess)
            (some (extractInfo (postProcess first))) Option.none) ∧
    (∀ (t : TableRef) (first : ReadRow) (rest : List ReadRow) (a : ExportArtifacts),
      exportarBody t (first :: rest) = Except.ok a →
      a.stamps = stampWrites (extractInfo first)) := by
  refine ⟨?_, ?_, ?_, ?_⟩
  · intro r
    exact ⟨fun h => by simp [extractInfo, infoField, h],
      fun h => by simp [extractInfo, infoFecha, h],
      fun h => by simp [extractInfo, infoField, h],
      fun h => by simp [extractInfo, infoField, h],
      fun h => by simp [extractInfo, infoField, h],
      fun h => by simp [extractInfo, infoField, h],
      fun h => by simp [extractInfo, infoField, h],
      fun h => by simp [extractInfo, infoField, h],
      fun h => by simp [extractInfo, infoField, h]⟩
  · intro r
    exact ⟨fun h => by
        simp [extractInfo, postProcess, mapRow, infoField, replaceSpecial_isna _ h, isna],
      fun h => by
        simp [extractInfo, postProcess, mapRow, infoField, replaceSpecial_isna _ h, isna],
      fun h => by
        simp [extractInfo, postProcess, mapRow, infoField, replaceSpecial_isna _ h, isna],
      fun h => by
        simp [extractInfo, postProcess, mapRow, infoField, replaceSpecial_isna _ h, isna],
      fun h => by
        simp [extractInfo, postProcess, mapRow, infoField, replaceSpecial_isna _ h, isna],
      fun h => by
        simp [extractInfo, postProcess, mapRow, infoField, replaceSpecial_isna _ h, isna],
      fun h => by
        simp [extractInfo, postProcess, mapRow, infoField, replaceSpecial_isna _ h, isna],
      fun h => by
        simp [extractInfo, postProcess, mapRow, infoField, replaceSpecial_isna _ h, isna],
      fun h => by
        simp [extractInfo, postProcess, mapRow, infoFecha, replaceSpecial_isna _ h,
          astypeStr, isna]⟩
  · intro joined mode v first rest h
    simp only [obtener_datos]
    rw [h]
  · intro t first rest a h
    simp only [exportarBody, List.map_cons, List.isEmpty_cons, Bool.false_eq_true,
      if_false] at h
    cases hfd : fmtFecha first.fechaFactura with
    | none =>
      rw [hfd] at h
      exact Except.noConfusion h
    | some d =>
      rw [hfd] at h
      injection h with h₂
      subst h₂
      rfl

/-- Witness for `C8_summary_fields` at the sample row (missing carrier
and missing invoice date). -/
theorem C8_summary_fields_witness :
    isna (exportRowOfJoined sampleJoined).transportista = true ∧
    (extractInfo (exportRowOfJoined sampleJoined)).transportista = Value.str "" ∧
    isna (readRowOfJoined sampleJoined).fechaFactura = true ∧
    (extractInfo (postProcess (readRowOfJoined sampleJoined))).fechaFactura
      = Value.str "None" :=
  ⟨rfl, (C8_summary_fields.1 (exportRowOfJoined sampleJoined)).1 rfl,
   rfl, (C8_summary_fields.2.1 (readRowOfJoined sampleJoined)).2.2.2.2.2.2.2.2 rfl⟩

end Traduccion
